import Mathlib

/-!
Shallow embedding of the client-side conversation state management layer of the
ai-chat-app repository: the `ChatContext` store (`src/unnamed/part_005`), the
`AuthContext` session manager (`src/unnamed/part_004`) and the request
interceptor of the authenticated HTTP client (`src/frontend/src/apiClient.ts`).

Server interactions are modelled by passing the would-be response of each HTTP
request as an explicit `Except` parameter; browser state (localStorage, axios
default headers, toast notifications, react-query invalidations) is carried in
explicit state records.  `Date.now()` and `new Date().toISOString()` are
modelled by explicit `now` / `ts` parameters.
-/

namespace AIChat

/-! ### JavaScript semantics helpers -/

/-- Emptiness of a string, computed on its character list. -/
def jsEmpty (s : String) : Bool :=
  s.data.isEmpty

/-- Truthiness of an optional string as JavaScript sees it: `undefined`/`null`
and the empty string are falsy. -/
def strTruthy : Option String → Bool
  | some s => !jsEmpty s
  | none => false

/-- JS whitespace, restricted to the ASCII whitespace relevant here. -/
def isWsChar (c : Char) : Bool :=
  c == ' ' || c == '\t' || c == '\n' || c == '\r'

/-- `String.prototype.trim`: strip leading and trailing whitespace. -/
def jsTrim (s : String) : String :=
  List.asString (((s.data.dropWhile isWsChar).reverse.dropWhile isWsChar).reverse)

/-- `charsStart pre l` : the character list `pre` starts the character list `l`
(used to model `String.prototype.includes`). -/
def charsStart : List Char → List Char → Bool
  | [], _ => true
  | _ :: _, [] => false
  | a :: as, b :: bs => a == b && charsStart as bs

/-- `charsSub sub l` : `sub` occurs contiguously inside `l`. -/
def charsSub (sub : List Char) : List Char → Bool
  | [] => sub.isEmpty
  | c :: rest => charsStart sub (c :: rest) || charsSub sub rest

/-- `String.prototype.includes` for the ASCII paths the client uses:
substring containment. -/
def jsIncludes (s sub : String) : Bool :=
  charsSub sub.data s.data

/-- `config.url?.includes(sub)` : an absent url is falsy. -/
def optIncludes (u : Option String) (sub : String) : Bool :=
  match u with
  | some s => jsIncludes s sub
  | none => false

/-! ### Data model (interfaces in src/unnamed/part_005 and part_004) -/

inductive Role
  | user
  | assistant
  | system
deriving DecidableEq, Repr

/-- The `Message` interface of ChatContext. -/
structure Message where
  id : String
  content : String
  role : Role
  timestamp : String
deriving DecidableEq, Repr

/-- The `Conversation` interface of ChatContext. -/
structure Conversation where
  id : String
  title : String
  messages : List Message
  createdAt : String
  updatedAt : String
  summary : Option String := none
deriving DecidableEq, Repr

/-- The `User` interface of AuthContext. -/
structure User where
  id : Nat
  email : String
  username : String
deriving DecidableEq, Repr

/-! ### Conversation/Message store (`ChatProvider`, src/unnamed/part_005) -/

/-- Observable state of the ChatProvider slice.  `invalidations` counts
`queryClient.invalidateQueries({queryKey:[conversations]})` calls,
`networkCalls` counts HTTP requests actually issued by the operations modelled
here, and `errorToasts` records `toast.error` notifications. -/
structure ChatState where
  currentConversation : Option Conversation
  searchQuery : String
  isSending : Bool
  invalidations : Nat
  networkCalls : Nat
  errorToasts : List String
deriving DecidableEq, Repr

/-- `currentConversation?.id` . -/
def currentId (st : ChatState) : Option String :=
  st.currentConversation.map (fun c => c.id)

/-- The guard of `sendMessage`: `if (!content.trim() || !currentConversation?.id) return;` -/
def sendGuard (st : ChatState) (content : String) : Bool :=
  jsEmpty (jsTrim content) || !(strTruthy (currentId st))

/-- `sendMessage` (part_005 lines 106-149).  `server` is the outcome of
`api.post('/chat/', {content, conversation_id})`; on success its payload is the
optional `data.response` field.  `now` models `Date.now()` at the first id
generation (the second id is `now + 1` as in the source); `ts` models
`new Date().toISOString()`.  All failures are caught inside, so the operation
always returns a state. -/
def sendMessage (st : ChatState) (content : String)
    (server : Except Unit (Option String)) (now : Nat) (ts : String) : ChatState :=
  if sendGuard st content then st
  else
    let st1 : ChatState :=
      { st with isSending := true, networkCalls := st.networkCalls + 1 }
    match server with
    | .error _ =>
        { st1 with
          errorToasts := st1.errorToasts ++ ["Failed to send message"]
          isSending := false }
    | .ok resp =>
        let st2 : ChatState :=
          if strTruthy resp then
            { st1 with currentConversation :=
                st1.currentConversation.map (fun prev =>
                  { prev with messages := prev.messages ++
                      [ { id := Nat.repr now, content := jsTrim content,
                          role := Role.user, timestamp := ts },
                        { id := Nat.repr (now + 1), content := resp.getD "",
                          role := Role.assistant, timestamp := ts } ] }) }
          else st1
        { st2 with invalidations := st2.invalidations + 1, isSending := false }

/-- `deleteConversation` (part_005 lines 93-103).  There is no catch inside the
operation: a failing `api.delete` rejects the returned promise, modelled by the
`Except Unit Unit` component of the result. -/
def deleteConversation (st : ChatState) (id : String) (server : Except Unit Unit) :
    Except Unit Unit × ChatState :=
  let st1 : ChatState := { st with networkCalls := st.networkCalls + 1 }
  match server with
  | .error e => (Except.error e, st1)
  | .ok _ =>
      let st2 : ChatState :=
        if currentId st1 = some id then { st1 with currentConversation := none } else st1
      (Except.ok (), { st2 with invalidations := st2.invalidations + 1 })

/-- `createNewConversation` (part_005 lines 82-90).  No catch inside: a failing
`api.post` rejects the returned promise. -/
def createNewConversation (st : ChatState) (server : Except Unit Conversation) :
    Except Unit Conversation × ChatState :=
  let st1 : ChatState := { st with networkCalls := st.networkCalls + 1 }
  match server with
  | .error e => (Except.error e, st1)
  | .ok conv => (Except.ok conv, { st1 with invalidations := st1.invalidations + 1 })

/-- The `enabled` key of the search `useQuery` (part_005 line 78):
`!!searchQuery.trim() && !!currentConversation?.id`. -/
def searchEnabled (st : ChatState) : Bool :=
  !(jsEmpty (jsTrim st.searchQuery)) && strTruthy (currentId st)

/-- The search slice (part_005 lines 68-79): for the current
`(searchQuery, conversationId)` key, the derived result set together with the
number of network requests issued for that key.  When the query is disabled the
react-query data stays at its `[]` default and the query function never runs;
when enabled, the result is `data.search_results || []`, modelled by `server`
(`none` = field absent).  Result entries are left opaque (`String`), their
shape being unspecified (`any[]`). -/
def searchSlice (st : ChatState) (server : Option (List String)) :
    List String × Nat :=
  if searchEnabled st then (server.getD [], 1) else ([], 0)

/-! ### Session/Identity manager (`AuthProvider`, src/unnamed/part_004) -/

/-- Observable state of the AuthProvider slice plus the client-local storage
and the axios default Authorization header it manipulates. -/
structure AuthState where
  user : Option User
  storedAccess : Option String
  storedRefresh : Option String
  authHeader : Option String
  networkCalls : Nat
  errorToasts : List String
  successToasts : List String
deriving DecidableEq, Repr

/-- The `data` of an axios error response: the optional `detail` and `message`
fields consulted by login/register error handling. -/
structure ErrorPayload where
  detail : Option String
  message : Option String
deriving DecidableEq, Repr

/-- A failed request: `some payload` when a response with a body was received,
`none` for a transport failure with no response (`error.response` absent). -/
abbrev ApiFailure := Option ErrorPayload

/-- `error.response?.data?.detail || error.response?.data?.message || fallback`. -/
def failureMessage (e : ApiFailure) (fallback : String) : String :=
  match e with
  | none => fallback
  | some p =>
      if strTruthy p.detail then p.detail.getD ""
      else if strTruthy p.message then p.message.getD ""
      else fallback

/-- `{access, refresh}` returned by `POST /auth/token/`. -/
structure TokenPair where
  access : String
  refresh : String
deriving DecidableEq, Repr

def loginFallback : String :=
  "Login failed. Please check your credentials and try again."

def registerFallback : String :=
  "Registration failed. Please check your details and try again."

/-- `login` (part_004 lines 51-87): token request; on success tokens are
persisted and the default header set **before** the profile request; any
failure is caught and reported via `toast.error`, returning `false`. -/
def login (st : AuthState) (tokenResp : Except ApiFailure TokenPair)
    (profileResp : Except ApiFailure User) : Bool × AuthState :=
  let st1 : AuthState := { st with networkCalls := st.networkCalls + 1 }
  match tokenResp with
  | .error e =>
      (false, { st1 with errorToasts := st1.errorToasts ++ [failureMessage e loginFallback] })
  | .ok tp =>
      let st2 : AuthState :=
        { st1 with
          storedAccess := some tp.access
          storedRefresh := some tp.refresh
          authHeader := some ("Bearer " ++ tp.access)
          networkCalls := st1.networkCalls + 1 }
      match profileResp with
      | .error e =>
          (false, { st2 with errorToasts := st2.errorToasts ++ [failureMessage e loginFallback] })
      | .ok u =>
          (true, { st2 with
                    user := some u
                    successToasts := st2.successToasts ++ ["Logged in successfully!"] })

/-- `register` (part_004 lines 89-107): account creation; success does not
authenticate; failures are caught and reported, returning `false`. -/
def registerUser (st : AuthState) (server : Except ApiFailure Unit) : Bool × AuthState :=
  let st1 : AuthState := { st with networkCalls := st.networkCalls + 1 }
  match server with
  | .error e =>
      (false, { st1 with errorToasts := st1.errorToasts ++ [failureMessage e registerFallback] })
  | .ok _ =>
      (true, { st1 with successToasts := st1.successToasts ++ ["Registration successful! Please log in."] })

/-- `logout` (part_004 lines 109-115): removes both stored tokens, clears the
user, raises a success toast; no network request. -/
def logout (st : AuthState) : AuthState :=
  { st with
    storedAccess := none
    storedRefresh := none
    user := none
    successToasts := st.successToasts ++ ["Logged out successfully"] }

/-- The identity claims `jwtDecode` extracts from a stored access token. -/
structure Claims where
  user_id : Nat
  email : String
  username : String
deriving DecidableEq, Repr

/-- The AuthProvider init effect (part_004 lines 31-49).  `decode` models
`jwtDecode` (`none` when decoding throws).  Yields the resolved session state:
a decodable stored token gives an authenticated user built from its claims; a
decode failure removes both stored tokens; no stored token leaves storage
untouched. -/
def initSession (storedAccess storedRefresh : Option String)
    (decode : String → Option Claims) : AuthState :=
  match storedAccess with
  | none =>
      { user := none, storedAccess := none, storedRefresh := storedRefresh,
        authHeader := none, networkCalls := 0, errorToasts := [], successToasts := [] }
  | some t =>
      match decode t with
      | some c =>
          { user := some { id := c.user_id, email := c.email, username := c.username },
            storedAccess := some t, storedRefresh := storedRefresh,
            authHeader := none, networkCalls := 0, errorToasts := [], successToasts := [] }
      | none =>
          { user := none, storedAccess := none, storedRefresh := none,
            authHeader := none, networkCalls := 0, errorToasts := [], successToasts := [] }

/-! ### Authenticated HTTP client (src/frontend/src/apiClient.ts) -/

/-- The slice of an axios request config the interceptor reads and writes. -/
structure RequestConfig where
  url : Option String
  authHeader : Option String
deriving DecidableEq, Repr

/-- The request interceptor (apiClient.ts lines 19-43): attach the stored
access token as a bearer credential unless the url mentions `token` or
`login`. -/
def requestInterceptor (cfg : RequestConfig) (storedToken : Option String) :
    RequestConfig :=
  if !(optIncludes cfg.url "token") && !(optIncludes cfg.url "login") then
    match storedToken with
    | some t => { cfg with authHeader := some ("Bearer " ++ t) }
    | none => cfg
  else cfg

/-! ### Decimal rendering facts (for the `Date.now().toString()` ids) -/

/-- `Nat.toDigitsCore` only prepends characters to its accumulator. -/
theorem toDigitsCore_app (b : Nat) :
    ∀ (fuel n : Nat) (l : List Char),
      ∃ more, Nat.toDigitsCore b fuel n l = more ++ l := by
  intro fuel
  induction fuel with
  | zero => intro n l; exact ⟨[], rfl⟩
  | succ f ih =>
      intro n l
      simp only [Nat.toDigitsCore]
      split
      · exact ⟨[Nat.digitChar (n % b)], rfl⟩
      · obtain ⟨more, h⟩ := ih (n / b) (Nat.digitChar (n % b) :: l)
        refine ⟨more ++ [Nat.digitChar (n % b)], ?_⟩
        rw [h, List.append_assoc]
        rfl

/-- The last character of the decimal rendering of `n` is the digit of `n % 10`. -/
theorem toDigits_getLast (n : Nat) :
    (Nat.toDigits 10 n).getLast? = some (Nat.digitChar (n % 10)) := by
  show (Nat.toDigitsCore 10 (n + 1) n []).getLast? = _
  simp only [Nat.toDigitsCore]
  split
  · rfl
  · obtain ⟨more, h⟩ := toDigitsCore_app 10 n (n / 10) [Nat.digitChar (n % 10)]
    rw [h]
    simp [List.getLast?_append]

theorem digitChar_ne_of_ne_lt10 (a b : Nat) (ha : a < 10) (hb : b < 10) (hne : a ≠ b) :
    Nat.digitChar a ≠ Nat.digitChar b := by
  interval_cases a <;> interval_cases b <;> simp_all <;> decide

/-- Consecutive naturals have distinct decimal renderings: the ids
`Date.now().toString()` and `(Date.now() + 1).toString()` of an appended
message pair differ. -/
theorem repr_ne_succ (n : Nat) : Nat.repr n ≠ Nat.repr (n + 1) := by
  intro h
  have hd : Nat.toDigits 10 n = Nat.toDigits 10 (n + 1) := by
    have h2 := congrArg String.data h
    simpa [Nat.repr, List.asString] using h2
  have h1 := toDigits_getLast n
  have h2 := toDigits_getLast (n + 1)
  rw [hd, h2] at h1
  have hmod : n % 10 ≠ (n + 1) % 10 := by omega
  exact digitChar_ne_of_ne_lt10 ((n + 1) % 10) (n % 10)
    (Nat.mod_lt _ (by norm_num)) (Nat.mod_lt _ (by norm_num))
    (fun he => hmod he.symm) (Option.some.inj h1)

/-! ### Sample states for concrete evaluations -/

/-- A sample conversation. -/
def convA : Conversation :=
  { id := "c1", title := "New Conversation", messages := [],
    createdAt := "2024-01-01", updatedAt := "2024-01-01" }

/-- A sample chat state with `convA` active. -/
def chatSt0 : ChatState :=
  { currentConversation := some convA, searchQuery := "", isSending := false,
    invalidations := 0, networkCalls := 0, errorToasts := [] }

/-- A sample chat state with no active conversation. -/
def chatStNone : ChatState :=
  { currentConversation := none, searchQuery := "", isSending := false,
    invalidations := 0, networkCalls := 0, errorToasts := [] }

/-- A sample anonymous session state. -/
def authSt0 : AuthState :=
  { user := none, storedAccess := none, storedRefresh := none, authHeader := none,
    networkCalls := 0, errorToasts := [], successToasts := [] }

/-! ### Claim theorems -/

/-- C5: session-manager initialization round-trips the stored token: a stored
access token decoding to claims `{user_id, email, username}` yields an
authenticated user with exactly those fields; an undecodable stored token
yields a null user and removes both stored tokens from client-local storage. -/
theorem initSession_token_roundtrip (storedRefresh : Option String)
    (decode : String → Option Claims) (t : String) :
    (∀ c, decode t = some c →
      (initSession (some t) storedRefresh decode).user =
        some { id := c.user_id, email := c.email, username := c.username }) ∧
    (decode t = none →
      (initSession (some t) storedRefresh decode).user = none ∧
      (initSession (some t) storedRefresh decode).storedAccess = none ∧
      (initSession (some t) storedRefresh decode).storedRefresh = none) := by
  constructor
  · intro c hc
    simp [initSession, hc]
  · intro hc
    simp [initSession, hc]

/-- A sample `jwtDecode`: decodes `"tok"` and throws on everything else. -/
def decodeEx : String → Option Claims :=
  fun s => if s = "tok" then some { user_id := 7, email := "a@b.c", username := "alice" } else none

theorem initSession_token_roundtrip_witness :
    (initSession (some "tok") (some "r") decodeEx).user =
      some { id := 7, email := "a@b.c", username := "alice" } ∧
    ((initSession (some "bad") (some "r") decodeEx).user = none ∧
      (initSession (some "bad") (some "r") decodeEx).storedAccess = none ∧
      (initSession (some "bad") (some "r") decodeEx).storedRefresh = none) := by
  constructor
  · exact (initSession_token_roundtrip (some "r") decodeEx "tok").1
      { user_id := 7, email := "a@b.c", username := "alice" } (by decide)
  · exact (initSession_token_roundtrip (some "r") decodeEx "bad").2 (by decide)

/-- C7: `sendMessage` is a no-op on degenerate input: empty or whitespace-only
content, or no (truthy) active conversation, leaves the entire chat state
unchanged — in particular no network call is made, no message appended and
`isSending` untouched. -/
theorem sendMessage_degenerate_noop (st : ChatState) (content : String)
    (server : Except Unit (Option String)) (now : Nat) (ts : String)
    (h : jsEmpty (jsTrim content) = true ∨ strTruthy (currentId st) = false) :
    sendMessage st content server now ts = st := by
  have hg : sendGuard st content = true := by
    cases h with
    | inl h => simp [sendGuard, h]
    | inr h => simp [sendGuard, h]
  simp [sendMessage, hg]

theorem sendMessage_degenerate_noop_witness :
    sendMessage chatSt0 "" (Except.ok (some "y")) 0 "t" = chatSt0 ∧
    sendMessage chatSt0 "   " (Except.ok (some "y")) 0 "t" = chatSt0 ∧
    sendMessage chatStNone "x" (Except.ok (some "y")) 0 "t" = chatStNone := by
  refine ⟨?_, ?_, ?_⟩
  · exact sendMessage_degenerate_noop chatSt0 "" (Except.ok (some "y")) 0 "t"
      (Or.inl (by decide))
  · exact sendMessage_degenerate_noop chatSt0 "   " (Except.ok (some "y")) 0 "t"
      (Or.inl (by decide))
  · exact sendMessage_degenerate_noop chatStNone "x" (Except.ok (some "y")) 0 "t"
      (Or.inr (by decide))

/-- C8: the search slice is gated on its two keys: with no active conversation,
or with an empty/whitespace-only query, the result set is empty and no network
request is issued; setting the query to the empty string (clearing it) yields
an empty result set whatever the server would have answered. -/
theorem searchSlice_gating (st : ChatState) (server : Option (List String)) :
    (st.currentConversation = none → searchSlice st server = ([], 0)) ∧
    (jsEmpty (jsTrim st.searchQuery) = true → searchSlice st server = ([], 0)) ∧
    searchSlice { st with searchQuery := "" } server = ([], 0) := by
  refine ⟨?_, ?_, ?_⟩
  · intro h
    simp [searchSlice, searchEnabled, currentId, h, strTruthy]
  · intro h
    simp [searchSlice, searchEnabled, h]
  · have h0 : jsEmpty (jsTrim "") = true := by decide
    simp [searchSlice, searchEnabled, h0]

theorem searchSlice_gating_witness :
    searchSlice { chatStNone with searchQuery := "hello" } (some ["r1"]) = ([], 0) ∧
    searchSlice { chatSt0 with searchQuery := "  " } (some ["r1"]) = ([], 0) ∧
    searchSlice { chatSt0 with searchQuery := "" } (some ["r1"]) = ([], 0) := by
  refine ⟨?_, ?_, ?_⟩
  · exact (searchSlice_gating { chatStNone with searchQuery := "hello" } (some ["r1"])).1 rfl
  · exact (searchSlice_gating { chatSt0 with searchQuery := "  " } (some ["r1"])).2.1 (by decide)
  · exact (searchSlice_gating chatSt0 (some ["r1"])).2.2

/-- C9: `logout` purges both stored tokens, clears the user and makes no
network call, in every state; applied to an already-anonymous state (null user,
no stored tokens) it leaves the session state and stored data unchanged. -/
theorem logout_idempotent (st : AuthState) :
    ((logout st).storedAccess = none ∧ (logout st).storedRefresh = none ∧
      (logout st).user = none ∧ (logout st).networkCalls = st.networkCalls) ∧
    (st.user = none → st.storedAccess = none → st.storedRefresh = none →
      ((logout st).user = st.user ∧ (logout st).storedAccess = st.storedAccess ∧
        (logout st).storedRefresh = st.storedRefresh ∧
        (logout st).authHeader = st.authHeader ∧
        (logout st).networkCalls = st.networkCalls)) := by
  refine ⟨⟨rfl, rfl, rfl, rfl⟩, ?_⟩
  intro hu ha hr
  simp [logout, hu, ha, hr]

theorem logout_idempotent_witness :
    ((logout authSt0).storedAccess = none ∧ (logout authSt0).storedRefresh = none ∧
      (logout authSt0).user = none ∧ (logout authSt0).networkCalls = authSt0.networkCalls) ∧
    ((logout authSt0).user = authSt0.user ∧
      (logout authSt0).storedAccess = authSt0.storedAccess ∧
      (logout authSt0).storedRefresh = authSt0.storedRefresh ∧
      (logout authSt0).authHeader = authSt0.authHeader ∧
      (logout authSt0).networkCalls = authSt0.networkCalls) := by
  refine ⟨(logout_idempotent authSt0).1, ?_⟩
  exact (logout_idempotent authSt0).2 rfl rfl rfl

/-- C1: optimistic send atomicity.  A successful `sendMessage` with
non-whitespace content against a (truthy) active conversation, with server
reply text `r` (a present, non-empty `data.response`), appends exactly the pair
(user message with the trimmed content, assistant message with `r`) to the
active conversation, each stamped with the client timestamp and the two ids
being distinct, and clears `isSending`; a failing send appends nothing and
leaves `isSending` false. -/
theorem sendMessage_atomicity (st : ChatState) (conv : Conversation)
    (content r : String) (now : Nat) (ts : String)
    (hconv : st.currentConversation = some conv) (hid : jsEmpty conv.id = false)
    (hcontent : jsEmpty (jsTrim content) = false) (hr : jsEmpty r = false) :
    ((sendMessage st content (Except.ok (some r)) now ts).currentConversation =
        some { conv with messages := conv.messages ++
            [ { id := Nat.repr now, content := jsTrim content,
                role := Role.user, timestamp := ts },
              { id := Nat.repr (now + 1), content := r,
                role := Role.assistant, timestamp := ts } ] } ∧
      Nat.repr now ≠ Nat.repr (now + 1) ∧
      (sendMessage st content (Except.ok (some r)) now ts).isSending = false) ∧
    ((sendMessage st content (Except.error ()) now ts).currentConversation =
        st.currentConversation ∧
      (sendMessage st content (Except.error ()) now ts).isSending = false) := by
  have hg : sendGuard st content = false := by
    simp [sendGuard, hcontent, currentId, hconv, strTruthy, hid]
  have htr : strTruthy (some r) = true := by
    simp [strTruthy, hr]
  refine ⟨⟨?_, repr_ne_succ now, ?_⟩, ?_, ?_⟩
  · simp [sendMessage, hg, htr, hconv]
  · simp [sendMessage, hg, htr]
  · simp [sendMessage, hg]
  · simp [sendMessage, hg]

theorem sendMessage_atomicity_witness :
    ((sendMessage chatSt0 "hello" (Except.ok (some "world")) 1000 "T").currentConversation =
        some { convA with messages :=
            [ { id := "1000", content := "hello", role := Role.user, timestamp := "T" },
              { id := "1001", content := "world", role := Role.assistant, timestamp := "T" } ] } ∧
      Nat.repr 1000 ≠ Nat.repr 1001 ∧
      (sendMessage chatSt0 "hello" (Except.ok (some "world")) 1000 "T").isSending = false) ∧
    ((sendMessage chatSt0 "hello" (Except.error ()) 1000 "T").currentConversation =
        chatSt0.currentConversation ∧
      (sendMessage chatSt0 "hello" (Except.error ()) 1000 "T").isSending = false) := by
  have h := sendMessage_atomicity chatSt0 convA "hello" "world" 1000 "T"
    (by decide) (by decide) (by decide) (by decide)
  exact h

/-- C6: the request interceptor attaches the stored access token as a bearer
Authorization credential exactly when the request url does not mention a login
or token-issuance endpoint; urls mentioning `token` or `login` are passed
through without touching the header. -/
theorem requestInterceptor_bearer (cfg : RequestConfig) (stored : Option String) :
    (optIncludes cfg.url "token" = false → optIncludes cfg.url "login" = false →
      ∀ t, stored = some t →
        requestInterceptor cfg stored = { cfg with authHeader := some ("Bearer " ++ t) }) ∧
    (optIncludes cfg.url "token" = true ∨ optIncludes cfg.url "login" = true →
      requestInterceptor cfg stored = cfg) := by
  constructor
  · intro h1 h2 t ht
    simp [requestInterceptor, h1, h2, ht]
  · intro h
    rcases h with h | h <;> simp [requestInterceptor, h]

theorem requestInterceptor_bearer_witness :
    requestInterceptor { url := some "/chat/conversations/", authHeader := none } (some "abc") =
      { url := some "/chat/conversations/", authHeader := some "Bearer abc" } ∧
    requestInterceptor { url := some "/auth/token/", authHeader := none } (some "abc") =
      { url := some "/auth/token/", authHeader := none } := by
  constructor
  · exact (requestInterceptor_bearer
      { url := some "/chat/conversations/", authHeader := none } (some "abc")).1
      (by decide) (by decide) "abc" rfl
  · exact (requestInterceptor_bearer
      { url := some "/auth/token/", authHeader := none } (some "abc")).2
      (Or.inl (by decide))

/-- C10: a successful send whose response body has an absent, null or empty
`response` field appends no messages, raises no error notification, still
triggers the conversation-collection invalidation, and clears `isSending`. -/
theorem sendMessage_falsy_response (st : ChatState) (conv : Conversation)
    (content : String) (resp : Option String) (now : Nat) (ts : String)
    (hconv : st.currentConversation = some conv) (hid : jsEmpty conv.id = false)
    (hcontent : jsEmpty (jsTrim content) = false) (hresp : strTruthy resp = false) :
    (sendMessage st content (Except.ok resp) now ts).currentConversation =
        st.currentConversation ∧
    (sendMessage st content (Except.ok resp) now ts).errorToasts = st.errorToasts ∧
    (sendMessage st content (Except.ok resp) now ts).invalidations =
        st.invalidations + 1 ∧
    (sendMessage st content (Except.ok resp) now ts).isSending = false := by
  have hg : sendGuard st content = false := by
    simp [sendGuard, hcontent, currentId, hconv, strTruthy, hid]
  refine ⟨?_, ?_, ?_, ?_⟩ <;> simp [sendMessage, hg, hresp]

theorem sendMessage_falsy_response_witness :
    (sendMessage chatSt0 "hello" (Except.ok (some "")) 1000 "T").currentConversation =
        chatSt0.currentConversation ∧
    (sendMessage chatSt0 "hello" (Except.ok (some "")) 1000 "T").errorToasts =
        chatSt0.errorToasts ∧
    (sendMessage chatSt0 "hello" (Except.ok (some "")) 1000 "T").invalidations =
        chatSt0.invalidations + 1 ∧
    (sendMessage chatSt0 "hello" (Except.ok (some "")) 1000 "T").isSending = false := by
  exact sendMessage_falsy_response chatSt0 convA "hello" (some "") 1000 "T"
    (by decide) (by decide) (by decide) (by decide)

/-- C2 counterexample: a server failure inside `deleteConversation` is not
caught at the operation boundary — the rejection escapes to the caller — and no
user-visible notification is raised by the operation. -/
theorem deleteConversation_error_escapes :
    (deleteConversation chatSt0 "c1" (Except.error ())).1 = Except.error () ∧
    (deleteConversation chatSt0 "c1" (Except.error ())).2.errorToasts = [] := by
  exact ⟨rfl, rfl⟩

/-- C2 (amended): failures inside `login`, `register` and `sendMessage` are
caught at the operation boundary and converted into a boolean outcome or a
resolved state plus a notification; failures inside `deleteConversation` and
`createNewConversation` are not caught — the rejection propagates to the
caller with no notification; in every case the store is not left partially
updated: a failed operation changes none of the conversation collection, the
active conversation or its messages. -/
theorem operation_failure_boundaries (chat : ChatState) (auth : AuthState)
    (content : String) (now : Nat) (ts : String) (e : ApiFailure)
    (id : String) (profileResp : Except ApiFailure User) :
    (sendGuard chat content = false →
      ((sendMessage chat content (Except.error ()) now ts).errorToasts =
          chat.errorToasts ++ ["Failed to send message"] ∧
        (sendMessage chat content (Except.error ()) now ts).currentConversation =
          chat.currentConversation ∧
        (sendMessage chat content (Except.error ()) now ts).invalidations =
          chat.invalidations ∧
        (sendMessage chat content (Except.error ()) now ts).isSending = false)) ∧
    ((login auth (Except.error e) profileResp).1 = false ∧
      (login auth (Except.error e) profileResp).2.errorToasts =
        auth.errorToasts ++ [failureMessage e loginFallback]) ∧
    (∀ tp, (login auth (Except.ok tp) (Except.error e)).1 = false ∧
      (login auth (Except.ok tp) (Except.error e)).2.errorToasts =
        auth.errorToasts ++ [failureMessage e loginFallback]) ∧
    ((registerUser auth (Except.error e)).1 = false ∧
      (registerUser auth (Except.error e)).2.errorToasts =
        auth.errorToasts ++ [failureMessage e registerFallback]) ∧
    deleteConversation chat id (Except.error ()) =
      (Except.error (), { chat with networkCalls := chat.networkCalls + 1 }) ∧
    createNewConversation chat (Except.error ()) =
      (Except.error (), { chat with networkCalls := chat.networkCalls + 1 }) := by
  refine ⟨?_, ⟨rfl, rfl⟩, fun tp => ⟨rfl, rfl⟩, ⟨rfl, rfl⟩, rfl, rfl⟩
  intro hg
  refine ⟨?_, ?_, ?_, ?_⟩ <;> simp [sendMessage, hg]

theorem operation_failure_boundaries_witness :
    ((sendMessage chatSt0 "hello" (Except.error ()) 0 "T").errorToasts =
        chatSt0.errorToasts ++ ["Failed to send message"] ∧
      (sendMessage chatSt0 "hello" (Except.error ()) 0 "T").currentConversation =
        chatSt0.currentConversation ∧
      (sendMessage chatSt0 "hello" (Except.error ()) 0 "T").invalidations =
        chatSt0.invalidations ∧
      (sendMessage chatSt0 "hello" (Except.error ()) 0 "T").isSending = false) ∧
    ((login authSt0 (Except.error none) (Except.ok { id := 1, email := "e", username := "u" })).1 = false ∧
      (login authSt0 (Except.error none) (Except.ok { id := 1, email := "e", username := "u" })).2.errorToasts =
        authSt0.errorToasts ++ [failureMessage none loginFallback]) ∧
    deleteConversation chatSt0 "c1" (Except.error ()) =
      (Except.error (), { chatSt0 with networkCalls := chatSt0.networkCalls + 1 }) := by
  have h := operation_failure_boundaries chatSt0 authSt0 "hello" 0 "T" none "c1"
    (Except.ok { id := 1, email := "e", username := "u" })
  exact ⟨h.1 (by decide), h.2.1, h.2.2.2.2.1⟩

/-- C3 counterexample: a login whose token request succeeds but whose profile
fetch fails leaves the access token newly persisted in client-local storage;
and with an error payload carrying no `detail` but a `message`, the reported
failure text is the `message` field, not the generic fallback. -/
theorem login_failure_persists_tokens :
    (login authSt0 (Except.ok { access := "atok", refresh := "rtok" })
        (Except.error none)).2.storedAccess = some "atok" ∧
    (login authSt0 (Except.ok { access := "atok", refresh := "rtok" })
        (Except.error none)).2.storedRefresh = some "rtok" ∧
    (login authSt0 (Except.error (some { detail := none, message := some "boom" }))
        (Except.ok { id := 1, email := "e", username := "u" })).2.errorToasts = ["boom"] ∧
    "boom" ≠ loginFallback := by
  refine ⟨rfl, rfl, rfl, by decide⟩

/-- C3 (amended): every failing `login` leaves the user null/unchanged and
reports the error payload's `detail` when present, else its `message` when
present, else the generic fallback; when the token request itself fails no
token is persisted, but when the token request succeeds and the subsequent
profile fetch fails, both tokens (and the default bearer header) have already
been persisted. -/
theorem login_failure_state (st : AuthState) (e : ApiFailure)
    (profileResp : Except ApiFailure User) (tp : TokenPair) :
    ((login st (Except.error e) profileResp).1 = false ∧
      (login st (Except.error e) profileResp).2.user = st.user ∧
      (login st (Except.error e) profileResp).2.storedAccess = st.storedAccess ∧
      (login st (Except.error e) profileResp).2.storedRefresh = st.storedRefresh ∧
      (login st (Except.error e) profileResp).2.errorToasts =
        st.errorToasts ++ [failureMessage e loginFallback]) ∧
    ((login st (Except.ok tp) (Except.error e)).1 = false ∧
      (login st (Except.ok tp) (Except.error e)).2.user = st.user ∧
      (login st (Except.ok tp) (Except.error e)).2.storedAccess = some tp.access ∧
      (login st (Except.ok tp) (Except.error e)).2.storedRefresh = some tp.refresh ∧
      (login st (Except.ok tp) (Except.error e)).2.authHeader =
        some ("Bearer " ++ tp.access) ∧
      (login st (Except.ok tp) (Except.error e)).2.errorToasts =
        st.errorToasts ++ [failureMessage e loginFallback]) ∧
    (failureMessage none loginFallback = loginFallback) ∧
    (∀ p : ErrorPayload, strTruthy p.detail = true →
      failureMessage (some p) loginFallback = p.detail.getD "") ∧
    (∀ p : ErrorPayload, strTruthy p.detail = false → strTruthy p.message = true →
      failureMessage (some p) loginFallback = p.message.getD "") ∧
    (∀ p : ErrorPayload, strTruthy p.detail = false → strTruthy p.message = false →
      failureMessage (some p) loginFallback = loginFallback) := by
  refine ⟨⟨rfl, rfl, rfl, rfl, rfl⟩, ⟨rfl, rfl, rfl, rfl, rfl, rfl⟩, rfl, ?_, ?_, ?_⟩
  · intro p hd
    simp [failureMessage, hd]
  · intro p hd hm
    simp [failureMessage, hd, hm]
  · intro p hd hm
    simp [failureMessage, hd, hm]

theorem login_failure_state_witness :
    ((login authSt0 (Except.error none) (Except.ok { id := 1, email := "e", username := "u" })).1 = false ∧
      (login authSt0 (Except.error none) (Except.ok { id := 1, email := "e", username := "u" })).2.user = authSt0.user ∧
      (login authSt0 (Except.error none) (Except.ok { id := 1, email := "e", username := "u" })).2.storedAccess = authSt0.storedAccess ∧
      (login authSt0 (Except.error none) (Except.ok { id := 1, email := "e", username := "u" })).2.storedRefresh = authSt0.storedRefresh ∧
      (login authSt0 (Except.error none) (Except.ok { id := 1, email := "e", username := "u" })).2.errorToasts =
        authSt0.errorToasts ++ [failureMessage none loginFallback]) ∧
    failureMessage (some { detail := none, message := some "boom" }) loginFallback = "boom" := by
  have h := login_failure_state authSt0 none
    (Except.ok { id := 1, email := "e", username := "u" })
    { access := "atok", refresh := "rtok" }
  exact ⟨h.1, h.2.2.2.2.1 { detail := none, message := some "boom" } (by decide) (by decide)⟩

/-- C4 counterexample: a `deleteConversation` of the active conversation whose
server request fails leaves the active reference set and triggers no
collection re-fetch, so neither the unconditional active-clear nor the
per-call re-fetch of the claim holds. -/
theorem deleteConversation_failure_keeps_active :
    (deleteConversation chatSt0 "c1" (Except.error ())).2.currentConversation =
      some convA ∧
    (deleteConversation chatSt0 "c1" (Except.error ())).2.invalidations = 0 := by
  exact ⟨rfl, rfl⟩

/-- C4 (amended): when the delete request succeeds, deleting the conversation
whose id equals the active conversation's id clears the active reference and
the collection re-fetch is triggered; when the request fails, the rejection
propagates, the active reference is untouched and no re-fetch is triggered. -/
theorem deleteConversation_active_invariant (st : ChatState) (id : String) :
    ((deleteConversation st id (Except.ok ())).2.invalidations =
        st.invalidations + 1) ∧
    (currentId st = some id →
      (deleteConversation st id (Except.ok ())).2.currentConversation = none) ∧
    ((deleteConversation st id (Except.error ())).1 = Except.error () ∧
      (deleteConversation st id (Except.error ())).2.currentConversation =
        st.currentConversation ∧
      (deleteConversation st id (Except.error ())).2.invalidations =
        st.invalidations) := by
  refine ⟨?_, ?_, rfl, rfl, rfl⟩
  · simp only [deleteConversation]
    split <;> rfl
  · intro h
    simp only [deleteConversation]
    have h1 : currentId { st with networkCalls := st.networkCalls + 1 } = some id := h
    simp [h1]

theorem deleteConversation_active_invariant_witness :
    ((deleteConversation chatSt0 "c1" (Except.ok ())).2.invalidations =
        chatSt0.invalidations + 1) ∧
    (deleteConversation chatSt0 "c1" (Except.ok ())).2.currentConversation = none := by
  have h := deleteConversation_active_invariant chatSt0 "c1"
  exact ⟨h.1, h.2.1 (by decide)⟩

end AIChat
